import Mathlib

/-!
Verification of the PDF-to-Excel extraction pipeline in `main.py`.

The pipeline is shallowly embedded: Python values crossing the JSON
boundary become the inductive `Json`; Python exceptions become the
error side of `Except PyErr`; the two external effects (the pdfplumber
read and the Gemini call) become explicit parameters (`PdfDoc`
describes how the document behaves under extraction, and a function
`String → ModelOutcome` describes how the model answers a prompt).
Calls with observable side effects (saving/removing the uploaded file,
calling the model) are recorded in an explicit `Event` trace.
-/

/-- A parsed JSON value, as produced by the Python standard library
decoder (dicts are key/value lists with distinct keys in this model). -/
inductive Json where
  | null : Json
  | bool (b : Bool) : Json
  | num (n : Int) : Json
  | str (s : String) : Json
  | arr (elems : List Json) : Json
  | obj (fields : List (String × Json)) : Json

/-- A Python exception, identified by its type and message. -/
inductive PyErr where
  | valueError (msg : String) : PyErr
  | jsonDecodeError (msg : String) : PyErr
  | typeError (msg : String) : PyErr
  | attributeError (msg : String) : PyErr
  | apiError (msg : String) : PyErr
deriving DecidableEq, Repr

/-- The message carried by an exception (Python `str(e)`). -/
def PyErr.msg : PyErr → String
  | .valueError m => m
  | .jsonDecodeError m => m
  | .typeError m => m
  | .attributeError m => m
  | .apiError m => m

/-- One cell of the produced worksheet. `empty` is a blank cell, which
is what openpyxl writes for a Python `None` in the DataFrame. -/
inductive Cell where
  | int (n : Int) : Cell
  | str (s : String) : Cell
  | bool (b : Bool) : Cell
  | empty : Cell
deriving DecidableEq, Repr

/-- A worksheet: a list of rows, each a list of cells. -/
abbrev Sheet := List (List Cell)

/-- How a document behaves under `pdfplumber` extraction:
either opening/parsing it raises, or it has pages whose
`extract_text()` results are the listed values (`none` models a page
for which `extract_text()` returns Python `None`), with `crashMidway`
recording that an exception is raised during the page loop after the
listed pages were consumed. -/
inductive PdfDoc where
  | openFailure : PdfDoc
  | pages (texts : List (Option String)) (crashMidway : Bool) : PdfDoc

/-- Outcome of one `model.generate_content` call: either the call
raises, or it returns a response whose `.text` either fails to parse
as JSON (`jsonText none`) or parses to the given value. -/
inductive ModelOutcome where
  | svcFailure (msg : String) : ModelOutcome
  | jsonText (parsed : Option Json) : ModelOutcome

/-- Observable side effects of one request. -/
inductive Event where
  | saveFile : Event
  | generateContent (prompt : String) : Event
  | removeFile : Event
deriving DecidableEq

/-- What the `/upload` route hands back to the HTTP layer. -/
inductive UploadResult where
  | sendFile (sheet : Sheet) : UploadResult
  | httpError (code : Nat) (msg : String) : UploadResult
deriving DecidableEq

/-- Number of positions at which `needle` occurs as a contiguous
sublist of `hay` (positions `0 .. hay.length`). -/
def countOccs (needle : List Char) : List Char → Nat
  | [] => if needle = [] then 1 else 0
  | c :: rest =>
      (if needle.isPrefixOf (c :: rest) then 1 else 0) + countOccs needle rest

/-- `extract_text_from_pdf` (main.py lines 28-38): accumulates
`(page.extract_text() or "") + "\n"` over the pages; any exception —
at open or during the loop — is caught and the function returns `""`,
discarding the accumulator. -/
def extract_text_from_pdf : PdfDoc → String
  | .openFailure => ""
  | .pages texts crashMidway =>
      if crashMidway then ""
      else texts.foldl (fun full_text p => full_text ++ (p.getD "" ++ "\n")) ""

/-- The fixed part of the f-string template in
`build_generic_logic_prompt` before `{document_text}`. -/
def PROMPT_HEAD : String :=
  "\nYou are an expert Data Structuring Engine. Convert the unstructured text below into a structured JSON dataset.\n\n### INPUT TEXT:\n"

/-- The fixed part of the f-string template after `{document_text}`. -/
def PROMPT_TAIL : String :=
  "\n\n### GENERIC EXTRACTION RULES (Strictly Follow):\n\n1. **Disambiguate Timelines (Logic):** - Analyze dates to distinguish between \"First\", \"Previous\", and \"Current\" roles.\n   - **Naming Convention:** Use verbose, descriptive keys. \n     - BAD: \"Salary\", \"Job Title\".\n     - GOOD: \"Salary of first professional role\", \"Current Designation\", \"Joining Date of previous organization\".\n\n2. **Atomic Data Splitting:**\n   - Split Names -> \"First Name\", \"Last Name\".\n   - Split Locations -> \"City\", \"State\".\n   - Split Money -> \"Value\" (Integer only), \"Currency\" (ISO code).\n\n3. **List Handling (Numbering):**\n   - For recurring items (Certifications, Projects), number them explicitly.\n   - Format Keys as: \"Certifications 1\", \"Certifications 2\".\n   - Combine the Name, Year, and Score into the Value/Comments for that number.\n\n4. **Data Normalization:**\n   - Dates: YYYY-MM-DD (ISO format).\n   - Numbers: Integers only (no commas).\n   - Text: Preserve original wording in \"Comments\".\n\n### OUTPUT FORMAT:\nReturn a single JSON object with this exact structure:\n\x7b\n  \"entries\": [\n    \x7b \"key\": \"Field Name\", \"value\": \"Extracted Data\", \"comments\": \"Verbatim source sentence\" \x7d\n  ]\n\x7d\n"

/-- `build_generic_logic_prompt` (main.py lines 40-76): the f-string
interpolates `document_text` once between the two fixed template
parts. -/
def build_generic_logic_prompt (document_text : String) : String :=
  PROMPT_HEAD ++ document_text ++ PROMPT_TAIL

/-- `process_pdf_with_gemini` (main.py lines 78-96), with the Gemini
service abstracted as `gemini : prompt → outcome`. Returns the Python
result (`parsed_data` or the exception raised) together with the trace
of model calls made. -/
def process_pdf_with_gemini (doc : PdfDoc) (gemini : String → ModelOutcome) :
    Except PyErr Json × List Event :=
  let full_text := extract_text_from_pdf doc
  if full_text = "" then
    (.error (.valueError "Failed to extract text from PDF"), [])
  else
    let prompt := build_generic_logic_prompt full_text
    match gemini prompt with
    | .svcFailure m => (.error (.apiError m), [.generateContent prompt])
    | .jsonText none =>
        (.error (.jsonDecodeError "Expecting value: line 1 column 1 (char 0)"),
         [.generateContent prompt])
    | .jsonText (some j) => (.ok j, [.generateContent prompt])

/-- Python `"entries" in parsed_data`: key membership for a dict,
element membership for a list (equality with a Python `str` holds only
for an equal `str`), substring membership for a `str`; for the other
JSON shapes `in` raises `TypeError`. -/
def entriesMember : Json → Except PyErr Bool
  | .obj fields => .ok (fields.any (fun p => p.1 = "entries"))
  | .arr elems =>
      .ok (elems.any (fun e => match e with | .str s => s = "entries" | _ => false))
  | .str s => .ok (0 < countOccs "entries".toList s.toList)
  | _ => .error (.typeError "argument of type is not iterable")

/-- Python `parsed_data["entries"]`: dict lookup; list/str subscripts
with a string key raise `TypeError`, other shapes are not
subscriptable. (Only reached when membership succeeded.) -/
def entriesItem : Json → Except PyErr Json
  | .obj fields =>
      match fields.lookup "entries" with
      | some v => .ok v
      | none => .error (.typeError "KeyError: entries")
  | .arr _ => .error (.typeError "list indices must be integers or slices, not str")
  | .str _ => .error (.typeError "string indices must be integers")
  | _ => .error (.typeError "object is not subscriptable")

/-- Python iteration over the value of `"entries"`: a list yields its
elements, a string its characters (as one-character strings), a dict
its keys; other shapes raise `TypeError`. -/
def entriesIter : Json → Except PyErr (List Json)
  | .arr elems => .ok elems
  | .str s => .ok (s.toList.map (fun c => .str (String.mk [c])))
  | .obj fields => .ok (fields.map (fun p => .str p.1))
  | _ => .error (.typeError "object is not iterable")

/-- Python `entry.get(k)`: only a dict has `.get`; the result is the
stored value or `None` when the key is absent. -/
def entryGet (entry : Json) (k : String) : Except PyErr Json :=
  match entry with
  | .obj fields => .ok ((fields.lookup k).getD .null)
  | _ => .error (.attributeError "object has no attribute get")

/-- The loop `for i, entry in enumerate(parsed_data["entries"], start=1)`
building `excel_rows`: each row is `(i, entry.get("key"),
entry.get("value"), entry.get("comments"))`. -/
def buildRows (i : Nat) : List Json → Except PyErr (List (Nat × Json × Json × Json))
  | [] => .ok []
  | entry :: rest => do
      let k ← entryGet entry "key"
      let v ← entryGet entry "value"
      let c ← entryGet entry "comments"
      let tail ← buildRows (i + 1) rest
      pure ((i, k, v, c) :: tail)

/-- Conversion of one Python row value to a worksheet cell by
`df.to_excel` / openpyxl: `None` becomes a blank cell, scalars are
written as themselves, and a nested list or dict raises. -/
def cellOfJson : Json → Except PyErr Cell
  | .null => .ok .empty
  | .str s => .ok (.str s)
  | .num n => .ok (.int n)
  | .bool b => .ok (.bool b)
  | .arr _ => .error (.valueError "Cannot convert list to Excel")
  | .obj _ => .error (.valueError "Cannot convert dict to Excel")

/-- Serialization of the accumulated rows to worksheet rows. -/
def cellRows : List (Nat × Json × Json × Json) → Except PyErr (List (List Cell))
  | [] => .ok []
  | (i, k, v, c) :: rest => do
      let kc ← cellOfJson k
      let vc ← cellOfJson v
      let cc ← cellOfJson c
      let tail ← cellRows rest
      pure ([.int (i : Int), kc, vc, cc] :: tail)

/-- The header row written by `df.to_excel(index=False)`: the DataFrame
columns, in first-appearance order of the row-dict keys. -/
def headerRow : List Cell := [.str "#", .str "Key", .str "Value", .str "Comments"]

/-- `create_excel_from_data` (main.py lines 98-118): validates the
presence of `"entries"`, builds one row per entry, and writes the
DataFrame. `pd.DataFrame([])` has no columns, so for an empty
`excel_rows` the written sheet is empty — no header row is emitted. -/
def create_excel_from_data (parsed_data : Json) : Except PyErr Sheet := do
  let present ← entriesMember parsed_data
  if !present then
    throw (.valueError "Invalid JSON structure: missing \x27entries\x27 key")
  let entriesVal ← entriesItem parsed_data
  let entries ← entriesIter entriesVal
  let excel_rows ← buildRows 1 entries
  let rows ← cellRows excel_rows
  if excel_rows.isEmpty then pure [] else pure (headerRow :: rows)

/-- The body of the `/upload` route (main.py lines 127-164) from the
point where the upload passed the request checks and is saved to disk:
`file.save`, `process_pdf_with_gemini`, `create_excel_from_data`,
`os.remove`, `send_file`; the surrounding `try/except` turns any
exception into a 500 JSON response. The event trace records the save,
the model calls and the removal of the temporary file. -/
def upload_pdf (doc : PdfDoc) (gemini : String → ModelOutcome) :
    UploadResult × List Event :=
  let (res, evs) := process_pdf_with_gemini doc gemini
  match res with
  | .error e => (.httpError 500 e.msg, Event.saveFile :: evs)
  | .ok parsed_data =>
      match create_excel_from_data parsed_data with
      | .error e => (.httpError 500 e.msg, Event.saveFile :: evs)
      | .ok sheet => (.sendFile sheet, Event.saveFile :: evs ++ [Event.removeFile])

/-- A scalar JSON field value, the shapes an `ExtractionRecord` field
may take (per the data model, plus `null` for tolerated missing data). -/
inductive CellVal where
  | null : CellVal
  | str (s : String) : CellVal
  | num (n : Int) : CellVal
  | bool (b : Bool) : CellVal
deriving DecidableEq, Repr

/-- Re-embed a scalar field value as JSON. -/
def CellVal.toJson : CellVal → Json
  | .null => .null
  | .str s => .str s
  | .num n => .num n
  | .bool b => .bool b

/-- One record of an `ExtractionResult`: the three fields of the data
model, each possibly absent (`none`). -/
structure ExtractionRecord where
  key : Option CellVal
  value : Option CellVal
  comments : Option CellVal
deriving DecidableEq, Repr

/-- The JSON object a record denotes: present fields only, in the
canonical `key`, `value`, `comments` order. -/
def ExtractionRecord.toJson (r : ExtractionRecord) : Json :=
  .obj ((r.key.map (fun v => ("key", v.toJson))).toList ++
        (r.value.map (fun v => ("value", v.toJson))).toList ++
        (r.comments.map (fun v => ("comments", v.toJson))).toList)

/-- The JSON value `entry.get` yields for a possibly-absent field. -/
def jfield (o : Option CellVal) : Json :=
  (o.map CellVal.toJson).getD .null

/-- The worksheet cell a possibly-absent field is exported as:
absent and `null` both become a blank cell. -/
def fieldCell : Option CellVal → Cell
  | none => .empty
  | some .null => .empty
  | some (.str s) => .str s
  | some (.num n) => .int n
  | some (.bool b) => .bool b

/-- The data row exported for record `r` at 1-based position `i`. -/
def recordRow (i : Nat) (r : ExtractionRecord) : List Cell :=
  [.int (i : Int), fieldCell r.key, fieldCell r.value, fieldCell r.comments]

/-- The data rows for a record list, numbering from `i`. -/
def recordRows (i : Nat) : List ExtractionRecord → List (List Cell)
  | [] => []
  | r :: rest => recordRow i r :: recordRows (i + 1) rest

/-- The parsed JSON of a well-formed model response: the record list
under the top-level `"entries"` key. -/
def entriesResult (xs : List ExtractionRecord) : Json :=
  .obj [("entries", .arr (xs.map ExtractionRecord.toJson))]

@[simp] theorem except_ok_bind {ε α β : Type} (a : α) (f : α → Except ε β) :
    (do let x ← Except.ok a; f x : Except ε β) = f a := rfl

@[simp] theorem except_throw_bind {ε α β : Type} (e : ε) (f : α → Except ε β) :
    (do let x ← (throw e : Except ε α); f x : Except ε β) = .error e := rfl

theorem entryGet_toJson_key (r : ExtractionRecord) :
    entryGet r.toJson "key" = .ok (jfield r.key) := by
  rcases r with ⟨k, v, c⟩
  rcases k with _ | k <;> rcases v with _ | v <;> rcases c with _ | c <;>
    simp [ExtractionRecord.toJson, entryGet, jfield, List.lookup]

theorem entryGet_toJson_value (r : ExtractionRecord) :
    entryGet r.toJson "value" = .ok (jfield r.value) := by
  rcases r with ⟨k, v, c⟩
  rcases k with _ | k <;> rcases v with _ | v <;> rcases c with _ | c <;>
    simp [ExtractionRecord.toJson, entryGet, jfield, List.lookup]

theorem entryGet_toJson_comments (r : ExtractionRecord) :
    entryGet r.toJson "comments" = .ok (jfield r.comments) := by
  rcases r with ⟨k, v, c⟩
  rcases k with _ | k <;> rcases v with _ | v <;> rcases c with _ | c <;>
    simp [ExtractionRecord.toJson, entryGet, jfield, List.lookup]

theorem cellOfJson_jfield (o : Option CellVal) :
    cellOfJson (jfield o) = .ok (fieldCell o) := by
  rcases o with _ | v
  · rfl
  · cases v <;> rfl

/-- The row-building loop and the serialization both succeed on a list
of records and together produce exactly the `recordRows`. -/
theorem buildRows_cellRows_records (xs : List ExtractionRecord) (i : Nat) :
    ∃ rs, buildRows i (xs.map ExtractionRecord.toJson) = .ok rs ∧
      cellRows rs = .ok (recordRows i xs) ∧ rs.length = xs.length := by
  induction xs generalizing i with
  | nil => exact ⟨[], rfl, rfl, rfl⟩
  | cons r rest ih =>
      obtain ⟨rs, hb, hc, hl⟩ := ih (i + 1)
      refine ⟨(i, jfield r.key, jfield r.value, jfield r.comments) :: rs, ?_, ?_, by simp [hl]⟩
      · simp [buildRows, entryGet_toJson_key, entryGet_toJson_value,
          entryGet_toJson_comments, hb]
      · simp [cellRows, cellOfJson_jfield, hc, recordRows]
        rfl

/-- Full characterization of `create_excel_from_data` on a well-formed
`ExtractionResult`: it succeeds, and produces the header plus the
numbered rows — except that an empty record list produces an empty
sheet (an empty `DataFrame` has no columns, so no header is written). -/
theorem create_excel_records (xs : List ExtractionRecord) :
    create_excel_from_data (entriesResult xs) =
      .ok (if xs.isEmpty then [] else headerRow :: recordRows 1 xs) := by
  obtain ⟨rs, hb, hc, hl⟩ := buildRows_cellRows_records xs 1
  rcases xs with _ | ⟨x, xs⟩
  · simp at hl
    subst hl
    rfl
  · rcases rs with _ | ⟨r, rs⟩
    · simp at hl
    · simp only [create_excel_from_data, entriesResult, entriesMember, entriesItem,
        entriesIter, List.any_cons, List.any_nil, List.lookup, except_ok_bind] at *
      simp only [List.map_cons] at hb
      simp [hb, hc]

theorem recordRows_length (i : Nat) (xs : List ExtractionRecord) :
    (recordRows i xs).length = xs.length := by
  induction xs generalizing i with
  | nil => rfl
  | cons r rest ih => simp [recordRows, ih]

theorem recordRows_getElem? (xs : List ExtractionRecord) (j i : Nat) :
    (recordRows j xs)[i]? = (xs[i]?).map (fun r => recordRow (j + i) r) := by
  induction xs generalizing j i with
  | nil => simp [recordRows]
  | cons r rest ih =>
      cases i with
      | zero => simp [recordRows]
      | succ i =>
          rw [show j + (i + 1) = (j + 1) + i by omega]
          simpa [recordRows] using ih (j + 1) i

/-- The page texts concatenated in document order, each followed by a
newline (`none`, i.e. a page yielding no text, contributes only the
newline). -/
def concatPageTexts : List (Option String) → String
  | [] => ""
  | p :: rest => (p.getD "" ++ "\n") ++ concatPageTexts rest

theorem foldl_append_concat (texts : List (Option String)) (acc : String) :
    texts.foldl (fun full_text p => full_text ++ (p.getD "" ++ "\n")) acc =
      acc ++ concatPageTexts texts := by
  induction texts generalizing acc with
  | nil => simp [concatPageTexts, String.append_empty]
  | cons p rest ih =>
      simp only [List.foldl_cons, ih, concatPageTexts, String.append_assoc]

theorem countOccs_pos_of_append (n a b : List Char) :
    1 ≤ countOccs n (a ++ n ++ b) := by
  induction a with
  | nil =>
      simp only [List.nil_append]
      cases n with
      | nil =>
          cases b with
          | nil => simp [countOccs]
          | cons c r => simp [countOccs, List.isPrefixOf]
      | cons c n' =>
          have hpre : (c :: n').isPrefixOf (c :: (n' ++ b)) = true := by
            rw [List.isPrefixOf_iff_prefix]
            exact ⟨b, by simp⟩
          rw [List.cons_append]
          simp [countOccs, hpre]
  | cons c a' ih =>
      rw [List.cons_append, List.cons_append]
      simp only [countOccs]
      split <;> omega

/-- C1: an LLM response that parses as a JSON object lacking the
top-level `"entries"` collection makes the structuring path fail with
the schema-kind error (`ValueError` with the invalid-structure
message), which is a different error kind than a JSON parse failure
(`JSONDecodeError`), and is never returned as a successful result. -/
theorem structure_missing_entries_schema_error (fields : List (String × Json))
    (h : ∀ p ∈ fields, p.1 ≠ "entries") :
    create_excel_from_data (.obj fields) =
        .error (.valueError "Invalid JSON structure: missing \x27entries\x27 key") ∧
    (∀ m, PyErr.valueError "Invalid JSON structure: missing \x27entries\x27 key" ≠
        PyErr.jsonDecodeError m) ∧
    (∀ sheet, create_excel_from_data (.obj fields) ≠ .ok sheet) := by
  have hany : fields.any (fun p => decide (p.1 = "entries")) = false := by
    simp only [List.any_eq_false]
    intro p hp
    simpa using h p hp
  have hmain : create_excel_from_data (.obj fields) =
      .error (.valueError "Invalid JSON structure: missing \x27entries\x27 key") := by
    simp [create_excel_from_data, entriesMember, hany]
  exact ⟨hmain, fun m => by simp, fun sheet h' => by
    rw [hmain] at h'
    exact Except.noConfusion h'⟩

theorem structure_missing_entries_schema_error_witness :
    create_excel_from_data (.obj [("data", Json.arr [])]) =
      .error (.valueError "Invalid JSON structure: missing \x27entries\x27 key") :=
  (structure_missing_entries_schema_error [("data", Json.arr [])] (by decide)).1

/-- C2: whenever text extraction yields the empty string, the pipeline
raises the extraction-failure `ValueError` and no `generate_content`
call appears in the trace. -/
theorem empty_extraction_fails_before_model_call (doc : PdfDoc)
    (gemini : String → ModelOutcome) (h : extract_text_from_pdf doc = "") :
    (process_pdf_with_gemini doc gemini).1 =
        .error (.valueError "Failed to extract text from PDF") ∧
    ∀ p, Event.generateContent p ∉ (process_pdf_with_gemini doc gemini).2 := by
  constructor <;> simp [process_pdf_with_gemini, h]

theorem empty_extraction_fails_before_model_call_witness :
    (process_pdf_with_gemini PdfDoc.openFailure (fun _ => ModelOutcome.jsonText none)).1 =
        .error (.valueError "Failed to extract text from PDF") ∧
    ∀ p, Event.generateContent p ∉
        (process_pdf_with_gemini PdfDoc.openFailure (fun _ => ModelOutcome.jsonText none)).2 :=
  empty_extraction_fails_before_model_call PdfDoc.openFailure
    (fun _ => ModelOutcome.jsonText none) rfl

/-- C3: for an `ExtractionResult` with entries `r1, ..., rn` the
exporter succeeds and emits exactly `n` data rows, the row at 0-based
position `i` carrying the 1-based index `i + 1` and the key, value and
comments of `r(i+1)` — encounter order, no sorting, deduplication or
grouping. -/
theorem toSpreadsheet_preserves_order (xs : List ExtractionRecord) :
    ∃ rows, create_excel_from_data (entriesResult xs) =
        .ok (if rows.isEmpty then [] else headerRow :: rows) ∧
      rows.length = xs.length ∧
      ∀ i : Nat, rows[i]? = (xs[i]?).map (fun r => recordRow (i + 1) r) := by
  refine ⟨recordRows 1 xs, ?_, recordRows_length 1 xs, fun i => ?_⟩
  · rw [create_excel_records]
    rcases xs with _ | ⟨x, xs⟩ <;> rfl
  · rw [recordRows_getElem? xs 1 i, Nat.add_comm]

/-- C4 (counterexample): for the empty `"entries"` collection the
exporter succeeds with a completely empty sheet — the header row
`#, Key, Value, Comments` is not emitted, because the empty DataFrame
has no columns. -/
theorem toSpreadsheet_empty_entries_no_header :
    create_excel_from_data (entriesResult []) = .ok [] ∧
      create_excel_from_data (entriesResult []) ≠ .ok [headerRow] := by
  refine ⟨rfl, fun h => ?_⟩
  have h' := Except.ok.inj h
  simp [headerRow] at h'

/-- C4 (amended): for every non-empty `"entries"` collection the
artifact is exactly one header row `#, Key, Value, Comments` followed
by one data row per entry; for the empty collection the sheet is
empty, with no header row. -/
theorem toSpreadsheet_header_and_rows (xs : List ExtractionRecord) (h : xs ≠ []) :
    ∃ rows, create_excel_from_data (entriesResult xs) = .ok (headerRow :: rows) ∧
      rows.length = xs.length := by
  refine ⟨recordRows 1 xs, ?_, recordRows_length 1 xs⟩
  rw [create_excel_records]
  rcases xs with _ | ⟨x, xs⟩
  · exact absurd rfl h
  · rfl

theorem toSpreadsheet_header_and_rows_witness :
    ∃ rows, create_excel_from_data (entriesResult
        [⟨some (.str "First Name"), some (.str "Jane"), some (.str "Jane Doe")⟩]) =
        .ok (headerRow :: rows) ∧ rows.length = 1 :=
  toSpreadsheet_header_and_rows
    [⟨some (.str "First Name"), some (.str "Jane"), some (.str "Jane Doe")⟩]
    (List.cons_ne_nil _ _)

/-- C5: a record whose `value` or `comments` field is `null` or absent
never causes a failure: the export succeeds, the record still gets its
row, and the affected field is exported as a blank cell in its column
(column 2 is Value, column 3 is Comments, 0-based). -/
theorem toSpreadsheet_null_fields_tolerated (pre post : List ExtractionRecord)
    (r : ExtractionRecord) :
    ∃ rows, create_excel_from_data (entriesResult (pre ++ r :: post)) =
        .ok (headerRow :: rows) ∧
      rows[pre.length]? = some (recordRow (pre.length + 1) r) ∧
      ((r.value = none ∨ r.value = some CellVal.null) →
        (recordRow (pre.length + 1) r)[2]? = some Cell.empty) ∧
      ((r.comments = none ∨ r.comments = some CellVal.null) →
        (recordRow (pre.length + 1) r)[3]? = some Cell.empty) := by
  refine ⟨recordRows 1 (pre ++ r :: post), ?_, ?_, ?_, ?_⟩
  · rw [create_excel_records]
    rcases pre with _ | _ <;> rfl
  · rw [recordRows_getElem?]
    rw [List.getElem?_append_right (Nat.le_refl pre.length)]
    simp [Nat.add_comm]
  · rintro (hv | hv) <;> simp [recordRow, fieldCell, hv]
  · rintro (hc | hc) <;> simp [recordRow, fieldCell, hc]

theorem toSpreadsheet_null_fields_tolerated_witness :
    ∃ rows, create_excel_from_data (entriesResult
        [⟨some (.str "Current Salary"), none, some CellVal.null⟩]) =
        .ok (headerRow :: rows) ∧
      rows[(0 : Nat)]? = some (recordRow 1 ⟨some (.str "Current Salary"), none, some CellVal.null⟩) ∧
      (recordRow 1 ⟨some (.str "Current Salary"), none, some CellVal.null⟩)[2]? = some Cell.empty ∧
      (recordRow 1 ⟨some (.str "Current Salary"), none, some CellVal.null⟩)[3]? = some Cell.empty := by
  obtain ⟨rows, h1, h2, h3, h4⟩ :=
    toSpreadsheet_null_fields_tolerated [] []
      ⟨some (.str "Current Salary"), none, some CellVal.null⟩
  exact ⟨rows, h1, h2, h3 (Or.inl rfl), h4 (Or.inr rfl)⟩

/-- C6: a document that cannot be opened or parsed as a PDF makes
`extract_text_from_pdf` return the empty string; the exception is
swallowed, nothing is raised to the caller (the embedding is a total
function). -/
theorem extract_unreadable_returns_empty :
    extract_text_from_pdf PdfDoc.openFailure = "" := rfl

/-- C7: for a readable PDF, extraction returns the concatenation of
the page texts in document order, each page's text (or the empty
string for a page yielding none) followed by a newline. -/
theorem extract_concatenates_pages (texts : List (Option String)) :
    extract_text_from_pdf (.pages texts false) = concatPageTexts texts := by
  show texts.foldl (fun full_text p => full_text ++ (p.getD "" ++ "\n")) "" = _
  rw [foldl_append_concat, String.empty_append]

set_option maxRecDepth 100000 in
/-- C8 (counterexample): the claim "the extracted text appears
verbatim and exactly once as a substring of the prompt" fails: for the
extracted text `"e"` the prompt contains many occurrences of `"e"`
(the fixed template itself contains the letter). -/
theorem prompt_text_not_exactly_once :
    countOccs "e".toList ((build_generic_logic_prompt "e").toList) ≠ 1 := by decide

/-- C8 (amended): `build_generic_logic_prompt` is pure and
deterministic, interpolates the extracted text verbatim at exactly one
fixed position (between the constant head and tail of the template),
and hence the text appears at least once as a substring — though its
substring-occurrence count can exceed one when the text also occurs in
the fixed template. -/
theorem buildPrompt_deterministic_interpolated (t : String) :
    (∀ t₂ : String, t = t₂ →
        build_generic_logic_prompt t = build_generic_logic_prompt t₂) ∧
    build_generic_logic_prompt t = PROMPT_HEAD ++ t ++ PROMPT_TAIL ∧
    1 ≤ countOccs t.toList (build_generic_logic_prompt t).toList := by
  refine ⟨fun t₂ h => by rw [h], rfl, ?_⟩
  have hdata : (build_generic_logic_prompt t).toList =
      PROMPT_HEAD.toList ++ t.toList ++ PROMPT_TAIL.toList := by
    simp [build_generic_logic_prompt, String.toList, String.data_append]
  rw [hdata]
  exact countOccs_pos_of_append t.toList PROMPT_HEAD.toList PROMPT_TAIL.toList

theorem buildPrompt_deterministic_interpolated_witness :
    build_generic_logic_prompt "Jane Doe" = build_generic_logic_prompt "Jane Doe" ∧
    build_generic_logic_prompt "Jane Doe" = PROMPT_HEAD ++ "Jane Doe" ++ PROMPT_TAIL ∧
    1 ≤ countOccs "Jane Doe".toList (build_generic_logic_prompt "Jane Doe").toList :=
  ⟨(buildPrompt_deterministic_interpolated "Jane Doe").1 "Jane Doe" rfl,
   (buildPrompt_deterministic_interpolated "Jane Doe").2.1,
   (buildPrompt_deterministic_interpolated "Jane Doe").2.2⟩

/-- C9 (code bug): on a failing run — here a PDF that cannot be read,
so the pipeline raises before producing a sheet — the `/upload`
handler answers with the 500 error but never removes the saved
temporary file: `os.remove` sits on the success path only, so the
claimed cleanup on every failure path does not happen. -/
theorem upload_leaves_temp_file_on_failure :
    (upload_pdf PdfDoc.openFailure (fun _ => ModelOutcome.svcFailure "unused")).1 =
        .httpError 500 "Failed to extract text from PDF" ∧
    Event.saveFile ∈
        (upload_pdf PdfDoc.openFailure (fun _ => ModelOutcome.svcFailure "unused")).2 ∧
    Event.removeFile ∉
        (upload_pdf PdfDoc.openFailure (fun _ => ModelOutcome.svcFailure "unused")).2 := by
  refine ⟨rfl, ?_, ?_⟩ <;>
    simp [upload_pdf, process_pdf_with_gemini, extract_text_from_pdf, PyErr.msg]

/-- C10: extraction is total; every failure — at open or raised midway
through the page loop — yields the empty string, discarding whatever
page text had already been accumulated. -/
theorem extract_total_discards_partial :
    extract_text_from_pdf PdfDoc.openFailure = "" ∧
    ∀ texts : List (Option String), extract_text_from_pdf (.pages texts true) = "" :=
  ⟨rfl, fun _ => rfl⟩
